import Mathlib

/-!
Verification development for the geeksforgeeks-unofficial-api repository.

The repository is a small Flask facade (src/app.py) over three extractors
(src/modules/scrap.py, src/modules/calendar.py, src/modules/contest.py).
This file gives a shallow embedding of the data model and the extraction,
routing, retry, caching and rate-limiting logic that the specification
talks about, and proves or refutes the specification claims against it.

JSON payloads are modelled by the inductive type JVal; the dynamically
typed Python dictionary operations used by the source (membership tests,
subscripting, dict.get) are modelled as functions into an exception monad
PyM, so that the try/except structure of the source translates directly.
-/

set_option maxHeartbeats 1000000

/-- A JSON-like Python value: the payloads that json.loads and response.json
produce in the source. Objects are association lists in insertion order,
matching Python dict iteration order. -/
inductive JVal where
  | null : JVal
  | bool : Bool → JVal
  | num : Int → JVal
  | str : String → JVal
  | arr : List JVal → JVal
  | obj : List (String × JVal) → JVal

/-- Looks a key up in an association list (first match, like a Python dict
whose keys are unique). -/
def lookupKey (kvs : List (String × JVal)) (k : String) : Option JVal :=
  (kvs.find? (fun p => p.1 = k)).map (fun p => p.2)

/-- Looks a key up with a default value: the model of dict.get on a dict. -/
def lookupD (kvs : List (String × JVal)) (k : String) (d : JVal) : JVal :=
  (lookupKey kvs k).getD d

/-- Python dict assignment d[k] = v: replaces the value in place when the key
is present (keeping its position), otherwise appends the new binding. -/
def insertAssoc (kvs : List (String × JVal)) (k : String) (v : JVal) :
    List (String × JVal) :=
  if (lookupKey kvs k).isSome then
    kvs.map (fun p => if p.1 = k then (k, v) else p)
  else
    kvs ++ [(k, v)]

/-- Membership of a key in a JSON object; false on non-objects. Used to state
properties of results (the source itself goes through pyIn below). -/
def hasKey (v : JVal) (k : String) : Bool :=
  match v with
  | .obj kvs => (lookupKey kvs k).isSome
  | _ => false

/-- The keys of a JSON object, in order; empty for non-objects. -/
def keysOf (v : JVal) : List String :=
  match v with
  | .obj kvs => kvs.map (fun p => p.1)
  | _ => []

/-- The Python exceptions that the modelled code can raise. -/
inductive PyExc where
  | typeError : PyExc
  | keyError : PyExc
  | attributeError : PyExc

/-- Computations that may raise a Python exception. -/
abbrev PyM (α : Type) := Except PyExc α

/-- Whether the first list is an initial segment of the second. -/
def listIsInitSeg : List Char → List Char → Bool
  | [], _ => true
  | _ :: _, [] => false
  | a :: as, b :: bs => a = b && listIsInitSeg as bs

/-- Substring containment on character lists: Python `needle in haystack` for
strings. -/
def listIsSubstr (needle : List Char) : List Char → Bool
  | [] => listIsInitSeg needle []
  | c :: cs => listIsInitSeg needle (c :: cs) || listIsSubstr needle cs

/-- Python membership test `k in v` for a string k: key membership on dicts,
substring test on strings, element equality on lists, TypeError otherwise. -/
def pyIn (k : String) (v : JVal) : PyM Bool :=
  match v with
  | .obj kvs => .ok (lookupKey kvs k).isSome
  | .str s => .ok (listIsSubstr k.data s.data)
  | .arr xs => .ok (xs.any (fun x => match x with | .str s => s = k | _ => false))
  | _ => .error .typeError

/-- Python subscript `v[k]` for a string key: dict lookup raising KeyError when
absent, TypeError on every non-dict value. -/
def pyGetItem (v : JVal) (k : String) : PyM JVal :=
  match v with
  | .obj kvs =>
    match lookupKey kvs k with
    | some w => .ok w
    | none => .error .keyError
  | _ => .error .typeError

/-- Python `v.get(k, d)`: defaulting lookup on dicts, AttributeError on any
value without a .get method. -/
def pyGet (v : JVal) (k : String) (d : JVal) : PyM JVal :=
  match v with
  | .obj kvs => .ok (lookupD kvs k d)
  | _ => .error .attributeError

/-- A single-quote character, for rendering Python repr output. -/
def pyQuote : String := String.singleton (Char.ofNat 39)

/-- Python repr() of a JSON value (string escaping inside reprs is elided;
no claim depends on it). -/
def pyRepr : JVal → String
  | .null => "None"
  | .bool b => if b then "True" else "False"
  | .num n => toString n
  | .str s => pyQuote ++ s ++ pyQuote
  | .arr xs =>
    "[" ++ String.intercalate ", " (xs.attach.map (fun x => pyRepr x.1)) ++ "]"
  | .obj kvs =>
    "\x7b" ++
      String.intercalate ", "
        (kvs.attach.map (fun p => pyQuote ++ p.1.1 ++ pyQuote ++ ": " ++ pyRepr p.1.2)) ++
      "\x7d"
decreasing_by
  · have := List.sizeOf_lt_of_mem x.2
    simp at this ⊢
    omega
  · obtain ⟨⟨k, v⟩, hmem⟩ := p
    have := List.sizeOf_lt_of_mem hmem
    simp at this ⊢
    omega

/-- Python str() of a JSON value, as used by the f-string in
Scraper._extract_solved_stats: identity on strings, repr-like elsewhere. -/
def pyStr (v : JVal) : String :=
  match v with
  | .str s => s
  | _ => pyRepr v

/-! ## Profile scraper (src/modules/scrap.py) -/

/-- Scraper.TIMEOUT: the per-call timeout of the profile page fetch, seconds. -/
def Scraper_TIMEOUT : Nat := 30

/-- The fixed prefix of every generated question URL in
Scraper._extract_solved_stats. -/
def problemsUrl : String := "https://practice.geeksforgeeks.org/problems/"

/-- Builds one question record from a problem-detail value, as the dict inside
the list comprehension of Scraper._extract_solved_stats does:
question = details.get("pname", ""), questionUrl = the fixed prefix followed
by str(details.get("slug", "")). Raises AttributeError when details is not
a dict. -/
def mkQuestion (details : JVal) : PyM JVal := do
  let pname ← pyGet details "pname" (.str "")
  let slug ← pyGet details "slug" (.str "")
  return .obj [("question", pname), ("questionUrl", .str (problemsUrl ++ pyStr slug))]

/-- The list comprehension over problems.values() in
Scraper._extract_solved_stats, in upstream order. -/
def mapQuestions : List (String × JVal) → PyM (List JVal)
  | [] => .ok []
  | (_, details) :: rest => do
    let q ← mkQuestion details
    let qs ← mapQuestions rest
    return q :: qs

/-- Lowercases an ASCII letter, leaving every other character unchanged. -/
def asciiLower (c : Char) : Char :=
  if 65 ≤ c.toNat ∧ c.toNat ≤ 90 then Char.ofNat (c.toNat + 32) else c

/-- Python str.lower() as applied to the difficulty keys. Python lowercasing
is Unicode-aware; the upstream difficulty labels are plain ASCII, for
which this is exact. -/
def strLower (s : String) : String :=
  ⟨s.data.map asciiLower⟩

/-- The per-difficulty entry stored by Scraper._extract_solved_stats:
count is len(questions) of the same list. -/
def statsEntry (questions : List JVal) : JVal :=
  .obj [("count", .num questions.length), ("questions", .arr questions)]

/-- The for-loop of Scraper._extract_solved_stats over
user_submissions.items(): each difficulty key is lowercased and assigned
the stats entry built from its problems dict; problems.values() on a
non-dict raises AttributeError. -/
def solvedLoop (acc : List (String × JVal)) :
    List (String × JVal) → PyM (List (String × JVal))
  | [] => .ok acc
  | (difficulty, problems) :: rest =>
    match problems with
    | .obj pkvs => do
      let questions ← mapQuestions pkvs
      solvedLoop (insertAssoc acc (strLower difficulty) (statsEntry questions)) rest
    | _ => .error .attributeError

/-- Scraper._extract_solved_stats: iterates the userSubmissionsInfo mapping;
any exception inside the try block (a non-dict value where a dict is
iterated, or a non-dict problem detail) is caught and an empty dict is
returned. A non-dict argument has no .items() and takes the same except
path. -/
def extract_solved_stats (user_submissions : JVal) : JVal :=
  match user_submissions with
  | .obj kvs =>
    match solvedLoop [] kvs with
    | .ok l => .obj l
    | .error _ => .obj []
  | _ => .obj []

/-- The dict literal returned by Scraper._extract_general_info when no lookup
raises, with the source's per-field defaults. -/
def fullInfo (username : String) (ui uc ucd : List (String × JVal)) : JVal :=
  .obj [
    ("userName", .str username),
    ("fullName", lookupD ui "name" (.str "")),
    ("profilePicture", lookupD ui "profile_image_url" (.str "")),
    ("institute", lookupD ui "institute_name" (.str "")),
    ("instituteRank", lookupD ui "institute_rank" (.str "")),
    ("longestStreak", lookupD ui "pod_solved_longest_streak" (.str "00")),
    ("codingScore", lookupD ui "score" (.num 0)),
    ("monthlyScore", lookupD ui "monthly_score" (.num 0)),
    ("currentRating", lookupD ucd "current_rating" (.num 0)),
    ("userGlobalRank", lookupD uc "user_global_rank" (.num 0)),
    ("level", lookupD uc "user_stars" (.num 0)),
    ("totalProblemsSolved", lookupD ui "total_problems_solved" (.num 0))]

/-- Scraper._extract_general_info: builds the twelve-field info dict with
.get defaults; any exception inside the try block (a .get call on a
non-dict) is caught and an empty dict is returned. -/
def extract_general_info (username : String)
    (user_info user_contest user_contest_data : JVal) : JVal :=
  match user_info, user_contest, user_contest_data with
  | .obj ui, .obj uc, .obj ucd => fullInfo username ui uc ucd
  | _, _, _ => .obj []

/-- A uniform profile-extractor error result, with the field names of the
source: an error message plus a status_code integer. -/
def errResult (msg : String) (code : Int) : JVal :=
  .obj [("error", .str msg), ("status_code", .num code)]

/-- The try-block body of Scraper._parse_user_data, translated statement by
statement; exceptions propagate to the caller which models the except
clauses. -/
def parse_user_data_body (username : String) (user_data : JVal) : PyM JVal := do
  let hasProps ← pyIn "props" user_data
  let shapeBad ←
    if hasProps then do
      let props ← pyGetItem user_data "props"
      let hasPageProps ← pyIn "pageProps" props
      pure (!hasPageProps)
    else
      pure true
  if shapeBad then
    return errResult "Invalid data structure" 500
  let props ← pyGetItem user_data "props"
  let page_props ← pyGetItem props "pageProps"
  let hasUserInfo ← pyIn "userInfo" page_props
  if !hasUserInfo then
    return errResult "User info not found" 404
  let user_info ← pyGetItem page_props "userInfo"
  let user_contest ← pyGet page_props "contestData" (.obj [])
  let user_contest_data ← pyGet user_contest "user_contest_data" (.obj [])
  let user_submissions ← pyGet page_props "userSubmissionsInfo" (.obj [])
  let general_info := extract_general_info username user_info user_contest user_contest_data
  let solved_stats := extract_solved_stats user_submissions
  return .obj [("info", general_info), ("solvedStats", solved_stats),
               ("status_code", .num 200)]

/-- Scraper._parse_user_data: runs the try block and maps a raised KeyError to
the Invalid-data-format 500 result and any other exception to the
Failed-to-parse 500 result, as the two except clauses do. -/
def parse_user_data (username : String) (user_data : JVal) : JVal :=
  match parse_user_data_body username user_data with
  | .ok v => v
  | .error .keyError => errResult "Invalid data format" 500
  | .error _ => errResult "Failed to parse user data" 500

/-- What the embedded __NEXT_DATA__ script element of the fetched profile page
yields: absent element, present but malformed JSON, or a parsed document. -/
inductive EmbeddedDoc where
  | absent : EmbeddedDoc
  | malformed : EmbeddedDoc
  | present : JVal → EmbeddedDoc

/-- The requests-library exceptions an outbound call can raise. All three are
subclasses of requests.exceptions.RequestException; only the first is a
requests.exceptions.Timeout. The message is the str() of the exception. -/
inductive ReqExc where
  | timeout : String → ReqExc
  | connectionError : String → ReqExc
  | httpError : Nat → String → ReqExc

/-- Whether an exception is a requests.exceptions.Timeout. -/
def ReqExc.isTimeout : ReqExc → Bool
  | .timeout _ => true
  | _ => false

/-- The message carried by the exception, as str(e) in the source f-strings. -/
def ReqExc.msg : ReqExc → String
  | .timeout m => m
  | .connectionError m => m
  | .httpError _ m => m

/-- The outcome of session.get in Scraper.fetchResponse: either a raised
requests exception (timeout, connection failure, exhausted retries or
raise_for_status), or an HTTP response whose body holds the embedded
document. The message text of library exceptions is opaque here. -/
inductive FetchResult where
  | exc : ReqExc → FetchResult
  | excOther : FetchResult
  | response : Nat → EmbeddedDoc → FetchResult

/-- The str() of the HTTPError that response.raise_for_status raises; its
exact text comes from the requests library and is modelled opaquely. -/
def httpErrorMsg (status : Nat) : String :=
  toString status ++ " Error"

/-- The except clauses of Scraper.fetchResponse, in source order: Timeout
first (504), then every other RequestException (500). -/
def scraperExcHandler (e : ReqExc) : JVal :=
  if e.isTimeout then errResult "Request timed out" 504
  else errResult ("Request failed: " ++ e.msg) 500

/-- Scraper.fetchResponse after the network call: a 404 status is answered
directly; raise_for_status turns any other 4xx/5xx status into an
HTTPError caught by the RequestException clause; then the embedded
document is located and parsed. -/
def fetchResponse (username : String) (r : FetchResult) : JVal :=
  match r with
  | .exc e => scraperExcHandler e
  | .excOther => errResult "An unexpected error occurred" 500
  | .response status page =>
    if status = 404 then errResult "Profile not found" 404
    else if 400 ≤ status ∧ status < 600 then
      scraperExcHandler (.httpError status (httpErrorMsg status))
    else
      match page with
      | .absent => errResult "Could not find user data" 404
      | .malformed => errResult "Failed to parse user data" 500
      | .present d => parse_user_data username d

/-! ## Calendar extractor (src/modules/calendar.py) -/

/-- Calendar.TIMEOUT: per-call timeout of the calendar JSON endpoint, seconds. -/
def Calendar_TIMEOUT : Nat := 10

/-- The body produced by response.json(): either a raised ValueError (with the
message text of the library exception) or a parsed JSON document. -/
inductive JsonBody where
  | malformed : String → JsonBody
  | doc : JVal → JsonBody

/-- The outcome of the POST in Calendar.fetch_response and
Contest.fetch_response: a raised requests exception, or a status plus body. -/
inductive ApiResult where
  | exc : ReqExc → ApiResult
  | response : Nat → JsonBody → ApiResult

/-- The first except clause of Calendar.fetch_response and
Contest.fetch_response: requests.exceptions.RequestException. It is listed
before any Timeout-specific handling (there is none), so a timeout lands
here too, and the produced dict has no status_code field. -/
def requestExcResult (e : ReqExc) : JVal :=
  .obj [("error", .str ("Request failed: " ++ e.msg))]

/-- The try-block body of Calendar._parse_calendar_data. -/
def parse_calendar_data_body (calendar_info : JVal) : PyM JVal := do
  let hasCount ← pyIn "count" calendar_info
  let hasResult ← if hasCount then pyIn "result" calendar_info else pure false
  if !hasCount || !hasResult then
    return .obj [("error", .str "Unexpected API response format")]
  let c ← pyGetItem calendar_info "count"
  let r ← pyGetItem calendar_info "result"
  return .obj [("Total Submissions", c), ("Submission Dates", r)]

/-- Calendar._parse_calendar_data: any exception inside the try block is
caught and mapped to a fixed error dict without a status_code field. -/
def parse_calendar_data (calendar_info : JVal) : JVal :=
  match parse_calendar_data_body calendar_info with
  | .ok v => v
  | .error _ => .obj [("error", .str "Failed to parse calendar data")]

/-- Calendar.fetch_response after the POST: raise_for_status turns a 4xx/5xx
status into an HTTPError caught by the RequestException clause; a
response.json() ValueError is caught by the second clause; otherwise the
parsed body is handed to _parse_calendar_data. The username and year only
feed the request payload. -/
def calendar_fetch_response (username : String) (year : Int) (r : ApiResult) : JVal :=
  match r with
  | .exc e => requestExcResult e
  | .response status body =>
    if 400 ≤ status ∧ status < 600 then
      requestExcResult (.httpError status (httpErrorMsg status))
    else
      match body with
      | .malformed m => .obj [("error", .str ("Failed to parse JSON response: " ++ m))]
      | .doc d => parse_calendar_data d

/-! ## Contest extractor (src/modules/contest.py) -/

/-- Contest.TIMEOUT: per-call timeout of the contest JSON endpoint, seconds. -/
def Contest_TIMEOUT : Nat := 10

/-- The try-block body of Contest._parse_contest_data, with the source's
evaluation order of the nested subscripts. -/
def parse_contest_data_body (contest_info : JVal) : PyM JVal := do
  let hasRank ← pyIn "user_global_rank" contest_info
  let hasStars ← if hasRank then pyIn "star_colour_codes" contest_info else pure false
  if !hasRank || !hasStars then
    return .obj [("error", .str "Unexpected API response format")]
  let level ← pyGetItem contest_info "user_stars"
  let ucd1 ← pyGetItem contest_info "user_contest_data"
  let rank ← pyGetItem ucd1 "current_rating"
  let globalRank ← pyGetItem contest_info "user_global_rank"
  let ucd2 ← pyGetItem contest_info "user_contest_data"
  let totalContests ← pyGetItem ucd2 "no_of_participated_contest"
  let contest_data : JVal := .obj [
    ("Level", level), ("Rank", rank), ("Global Rank", globalRank),
    ("Total Contests", totalContests)]
  let ucd3 ← pyGetItem contest_info "user_contest_data"
  let details ← pyGetItem ucd3 "contest_data"
  return .obj [("Contest Data", contest_data), ("Contest Details", details)]

/-- Contest._parse_contest_data: any exception inside the try block (notably
the unguarded user_stars and user_contest_data subscripts) is caught and
mapped to a fixed error dict without a status_code field. -/
def parse_contest_data (contest_info : JVal) : JVal :=
  match parse_contest_data_body contest_info with
  | .ok v => v
  | .error _ => .obj [("error", .str "Failed to parse contest data")]

/-- Contest.fetch_response after the POST, with the same exception layout as
the calendar extractor. -/
def contest_fetch_response (username : String) (year : Int) (r : ApiResult) : JVal :=
  match r with
  | .exc e => requestExcResult e
  | .response status body =>
    if 400 ≤ status ∧ status < 600 then
      requestExcResult (.httpError status (httpErrorMsg status))
    else
      match body with
      | .malformed m => .obj [("error", .str ("Failed to parse JSON response: " ++ m))]
      | .doc d => parse_contest_data d

/-! ## Router and validator (src/app.py) -/

/-- One character of the class [a-zA-Z0-9_-] of the username pattern. -/
def isUsernameChar (c : Char) : Bool :=
  (decide (Char.ofNat 97 ≤ c) && decide (c ≤ Char.ofNat 122)) ||
  (decide (Char.ofNat 65 ≤ c) && decide (c ≤ Char.ofNat 90)) ||
  (decide (Char.ofNat 48 ≤ c) && decide (c ≤ Char.ofNat 57)) ||
  c = Char.ofNat 95 || c = Char.ofNat 45

/-- validate_username in src/app.py: bool(re.match(pattern, username)) with
pattern = caret [a-zA-Z0-9_-]+ dollar. Under Python re semantics (re.match
anchors at the start; a non-MULTILINE dollar also matches just before one
trailing newline), the accepted strings are a nonempty run of class
characters, optionally followed by a single trailing newline. The
falsiness test `if not username` rejects the empty string. -/
def validate_username (username : String) : Bool :=
  let cs := username.data
  let core := if cs.getLast? = some (Char.ofNat 10) then cs.dropLast else cs
  decide (core ≠ []) && core.all isUsernameChar

/-- The invalid-username 400 response the three resource classes return. -/
def invalidUsernameResponse : JVal × JVal :=
  (.obj [("error", .str "Invalid username format"), ("status_code", .num 400)],
   .num 400)

/-- The shared result-to-status mapping of the three resource get methods:
an "error" key in the extractor result selects the result's own
status_code (default 500), otherwise the result is served with 200.
Statuses are kept as JSON values, matching response.get("status_code", 500). -/
def route_result (response : JVal) : JVal × JVal :=
  if hasKey response "error" then
    (response,
      match response with
      | .obj kvs => lookupD kvs "status_code" (.num 500)
      | _ => .num 500)
  else
    (response, .num 200)

/-- geeksforgeeksAPI.get: validates the username, then scrapes and maps the
result to a status. -/
def profile_route (username : String) (r : FetchResult) : JVal × JVal :=
  if !validate_username username then invalidUsernameResponse
  else route_result (fetchResponse username r)

/-- GeeksForGeeksCalendarAPI.get, after year resolution. -/
def calendar_route (username : String) (year : Int) (r : ApiResult) : JVal × JVal :=
  if !validate_username username then invalidUsernameResponse
  else route_result (calendar_fetch_response username year r)

/-- GeeksForGeeksContestAPI.get, after year resolution. -/
def contest_route (username : String) (year : Int) (r : ApiResult) : JVal × JVal :=
  if !validate_username username then invalidUsernameResponse
  else route_result (contest_fetch_response username year r)

/-! ## Rate limiter configuration (src/app.py) -/

/-- A flask-limiter limit string: an amount of requests per window length in
seconds. -/
structure RateLimit where
  amount : Nat
  window : Nat

/-- RATE_LIMIT_PER_MINUTE = "10 per minute". -/
def RATE_LIMIT_PER_MINUTE : RateLimit := ⟨10, 60⟩

/-- RATE_LIMIT_PER_HOUR = "50 per hour". -/
def RATE_LIMIT_PER_HOUR : RateLimit := ⟨50, 3600⟩

/-- RATE_LIMIT_PER_DAY = "200 per day". -/
def RATE_LIMIT_PER_DAY : RateLimit := ⟨200, 86400⟩

/-- The default_limits_exempt_when callable passed to the Limiter constructor:
lambda True, so the default limits are exempted on every request. -/
def default_limits_exempt_when : Unit → Bool := fun _ => true

/-- The limits flask-limiter evaluates for a request to one of the three
resource routes: the per-minute limit from the route decorator, plus the
default limits (day, hour) only when they are not exempted. With
default_limits_exempt_when returning true they never apply (and decorated
routes override default limits in flask-limiter in any case). -/
def routeLimits : List RateLimit :=
  [RATE_LIMIT_PER_MINUTE] ++
    (if default_limits_exempt_when () then []
     else [RATE_LIMIT_PER_DAY, RATE_LIMIT_PER_HOUR])

/-- The number of already-made hits from the same client address that fall in
the same fixed window as time t (strategy="fixed-window": aligned buckets
of the window length). -/
def fixedWindowCount (hits : List Nat) (l : RateLimit) (t : Nat) : Nat :=
  (hits.filter (fun u => u / l.window = t / l.window)).length

/-- Whether a request at time t from a client with the given hit history is
admitted: every applicable limit must still have room in its current
window. -/
def allowRequest (hits : List Nat) (t : Nat) : Bool :=
  routeLimits.all (fun l => fixedWindowCount hits l t < l.amount)

/-- Runs a sequence of request times from one client address through the
limiter, recording every hit and returning the admission decisions. -/
def limiterDecisions (prev : List Nat) : List Nat → List Bool
  | [] => []
  | t :: rest => allowRequest prev t :: limiterDecisions (prev ++ [t]) rest

/-- The JSON body and status produced by the app's 429 error handler. -/
def ratelimitResponse : JVal × JVal :=
  (.obj [("error", .str "Too many requests"),
         ("message", .str "Rate limit exceeded. Please try again in a minute."),
         ("status_code", .num 429)],
   .num 429)

/-- A rate-limited request is answered by the 429 handler; an admitted one by
its route handler. -/
def limiterGate (prev : List Nat) (t : Nat) (handler : JVal × JVal) : JVal × JVal :=
  if allowRequest prev t then handler else ratelimitResponse

/-! ## Retry policy of the profile fetch (src/modules/scrap.py) -/

/-- The urllib3 Retry configuration built by Scraper._create_session. Per
urllib3 semantics (and the source's own comment "number of retries"),
total bounds the number of retries after the initial request. -/
structure RetryConfig where
  total : Nat
  backoff_factor : Nat
  status_forcelist : List Nat

/-- Retry(total=3, backoff_factor=1, status_forcelist=[429, 500, 502, 503,
504]) from Scraper._create_session. -/
def scraperRetryConfig : RetryConfig :=
  ⟨3, 1, [429, 500, 502, 503, 504]⟩

/-- One observed outcome of a single upstream attempt: an HTTP status, or a
connection-level failure. -/
inductive Attempt where
  | status : Nat → Attempt
  | connFail : Attempt

/-- Whether urllib3 retries after this outcome: on a connection-level failure,
or on a response whose status is in the forcelist. -/
def shouldRetry (cfg : RetryConfig) : Attempt → Bool
  | .status c => cfg.status_forcelist.contains c
  | .connFail => true

/-- How many requests the retrying session issues when attempt i of the
upstream yields outcomes i: fuel counts the retries still allowed, so the
initial request plus up to cfg.total retries. -/
def retryLoop (cfg : RetryConfig) (outcomes : Nat → Attempt) :
    Nat → Nat → Nat
  | 0, i => i + 1
  | fuel' + 1, i =>
    if shouldRetry cfg (outcomes i) then retryLoop cfg outcomes fuel' (i + 1)
    else i + 1

/-- The total number of upstream requests made for one call of
Scraper.fetchResponse under the configured retry policy. -/
def attemptsMade (cfg : RetryConfig) (outcomes : Nat → Attempt) : Nat :=
  retryLoop cfg outcomes cfg.total 0

/-- The wait inserted before retry number n (n = 1, 2, ...): the exponential
backoff documented in the source ("wait 1, 2, 4 seconds between
retries"), backoff_factor * 2 ^ (n - 1). -/
def backoffDelay (cfg : RetryConfig) (n : Nat) : Nat :=
  cfg.backoff_factor * 2 ^ (n - 1)

/-! ## Memoization of the calendar and contest fetches -/

/-- A live Python object on which a cached bound method is invoked: functools
lru_cache keys on the argument tuple (self,), and the default object
equality and hash are identity, so the cache key reduces to the object
identity. The cache keeps a strong reference to self, so distinct live
instances always have distinct identities. -/
structure PyInstance where
  objId : Nat
  username : String
  year : Int

/-- Lookup in the lru_cache of a bound method, keyed by object identity. -/
def lruLookup (entries : List (Nat × JVal)) (k : Nat) : Option JVal :=
  ((entries.find? (fun p => p.1 = k)).map (fun p => p.2))

/-- Store into an lru_cache with maxsize 100: the new entry becomes the most
recent one and the least recent entry beyond the capacity is evicted. -/
def lruInsert (entries : List (Nat × JVal)) (k : Nat) (v : JVal) :
    List (Nat × JVal) :=
  ((k, v) :: entries.filter (fun p => p.1 ≠ k)).take 100

/-- The per-process state relevant to the calendar route: the allocation
counter for fresh Python objects, the shared lru_cache of
Calendar.fetch_response, and how many upstream calls were made. -/
structure CalendarAppState where
  nextObjId : Nat
  cache : List (Nat × JVal)
  upstreamCalls : Nat

/-- One request to GeeksForGeeksCalendarAPI.get, as the source executes it:
a fresh Calendar instance is constructed (calendar_obj = Calendar(username,
year)), then the lru_cache-wrapped fetch_response is called on it, so the
cache is consulted at the identity of the brand-new instance. fetcher
abstracts the network interaction of a cache miss. -/
def handleCalendarRequest (fetcher : String → Int → JVal)
    (st : CalendarAppState) (username : String) (year : Int) :
    CalendarAppState × JVal :=
  let selfId := st.nextObjId
  match lruLookup st.cache selfId with
  | some v => ({ st with nextObjId := selfId + 1 }, v)
  | none =>
    let v := fetcher username year
    ({ nextObjId := selfId + 1,
       cache := lruInsert st.cache selfId v,
       upstreamCalls := st.upstreamCalls + 1 }, v)

/-- Runs a sequence of calendar requests against one fresh process. -/
def runCalendarRequests (fetcher : String → Int → JVal)
    (st : CalendarAppState) : List (String × Int) → CalendarAppState
  | [] => st
  | (u, y) :: rest =>
    runCalendarRequests fetcher (handleCalendarRequest fetcher st u y).1 rest

/-- The initial state of a fresh process. -/
def initialCalendarAppState : CalendarAppState := ⟨0, [], 0⟩

/-! ## Shape predicates used to state the claims -/

/-- The entries of a JSON object; empty for non-objects. -/
def objEntries (v : JVal) : List (String × JVal) :=
  match v with
  | .obj kvs => kvs
  | _ => []

/-- The field names of the info dict built by Scraper._extract_general_info. -/
def profileInfoKeys : List String :=
  ["userName", "fullName", "profilePicture", "institute", "instituteRank",
   "longestStreak", "codingScore", "monthlyScore", "currentRating",
   "userGlobalRank", "level", "totalProblemsSolved"]

/-- Either the empty fallback dict of the except clause, or the fully
populated twelve-field info dict. -/
def infoPopulated (v : JVal) : Bool :=
  match v with
  | .obj [] => true
  | v => keysOf v == profileInfoKeys

/-- One solved-stats entry of the shape built by the source, with count equal
to the length of its questions list. -/
def statsEntryOk (v : JVal) : Bool :=
  match v with
  | .obj [("count", .num n), ("questions", .arr qs)] => n == (qs.length : Int)
  | _ => false

/-- Every difficulty entry of a solved-stats dict is well-shaped. -/
def statsPopulated (v : JVal) : Bool :=
  match v with
  | .obj kvs => kvs.all (fun p => statsEntryOk p.2)
  | _ => false

/-- An extractor failure dict consisting of exactly an error message, with no
status_code field: the failure shape of the calendar and contest
extractors. -/
def isBareError (v : JVal) : Bool :=
  match v with
  | .obj [("error", .str _)] => true
  | _ => false

/-- The success body of the profile extractor: info, solvedStats and the
embedded status_code 200. -/
def profileBodyOk (v : JVal) : Bool :=
  match v with
  | .obj [("info", _), ("solvedStats", _), ("status_code", .num 200)] => true
  | _ => false

/-! ## Basic lemmas about the Python-operation models -/

theorem pym_ok_bind {α β : Type} (a : α) (f : α → PyM β) :
    (Except.ok a : PyM α) >>= f = f a := rfl

theorem pym_error_bind {α β : Type} (e : PyExc) (f : α → PyM β) :
    (Except.error e : PyM α) >>= f = Except.error e := rfl

theorem lookupKey_nil (k : String) : lookupKey [] k = none := rfl

theorem lookupKey_cons (k' : String) (v : JVal) (kvs : List (String × JVal))
    (k : String) :
    lookupKey ((k', v) :: kvs) k = if k' = k then some v else lookupKey kvs k := by
  simp only [lookupKey, List.find?]
  by_cases h : k' = k <;> simp [h]

theorem lookupKey_append_of_none (a b : List (String × JVal)) (k : String)
    (h : lookupKey a k = none) : lookupKey (a ++ b) k = lookupKey b k := by
  induction a with
  | nil => simp
  | cons p rest ih =>
    obtain ⟨k', v⟩ := p
    rw [List.cons_append, lookupKey_cons] at *
    by_cases hk : k' = k
    · simp [hk] at h
    · simp [hk] at h ⊢
      exact ih h

theorem insertAssoc_of_none (kvs : List (String × JVal)) (k : String) (v : JVal)
    (h : lookupKey kvs k = none) : insertAssoc kvs k v = kvs ++ [(k, v)] := by
  simp [insertAssoc, h]

theorem insertAssoc_all (P : JVal → Bool) (kvs : List (String × JVal))
    (k : String) (v : JVal) (hall : kvs.all (fun p => P p.2) = true)
    (hv : P v = true) :
    ((insertAssoc kvs k v).all (fun p => P p.2)) = true := by
  unfold insertAssoc
  split
  · simp only [List.all_map, List.all_eq_true] at *
    intro p hp
    by_cases hk : p.1 = k
    · simp [Function.comp, hk, hv]
    · simp only [Function.comp, hk, if_false]
      exact hall p hp
  · simp [List.all_append, hall, hv]

/-! ## Classification of extractor outputs -/

theorem extract_general_info_populated (u : String) (a b c : JVal) :
    infoPopulated (extract_general_info u a b c) = true := by
  cases a <;> cases b <;> cases c <;> rfl

theorem statsEntryOk_statsEntry (qs : List JVal) :
    statsEntryOk (statsEntry qs) = true := by
  simp [statsEntryOk, statsEntry]

theorem solvedLoop_all (kvs : List (String × JVal)) :
    ∀ (acc l : List (String × JVal)),
      acc.all (fun p => statsEntryOk p.2) = true →
      solvedLoop acc kvs = .ok l →
      l.all (fun p => statsEntryOk p.2) = true := by
  induction kvs with
  | nil =>
    intro acc l hacc h
    simp only [solvedLoop] at h
    cases h
    exact hacc
  | cons hd rest ih =>
    intro acc l hacc h
    obtain ⟨difficulty, problems⟩ := hd
    cases problems with
    | obj pkvs =>
      simp only [solvedLoop] at h
      cases hq : mapQuestions pkvs with
      | error e => rw [hq, pym_error_bind] at h; cases h
      | ok qs =>
        rw [hq, pym_ok_bind] at h
        exact ih _ _ (insertAssoc_all _ _ _ _ hacc (statsEntryOk_statsEntry qs)) h
    | null => cases h
    | bool b => cases h
    | num n => cases h
    | str s => cases h
    | arr xs => cases h

theorem extract_solved_stats_populated (subs : JVal) :
    statsPopulated (extract_solved_stats subs) = true := by
  cases subs with
  | obj kvs =>
    simp only [extract_solved_stats]
    cases h : solvedLoop [] kvs with
    | ok l => exact solvedLoop_all kvs [] l rfl h
    | error e => rfl
  | null => rfl
  | bool b => rfl
  | num n => rfl
  | str s => rfl
  | arr xs => rfl

theorem pym_pure {α : Type} (a : α) : (pure a : PyM α) = Except.ok a := rfl

theorem parse_user_data_cases (u : String) (d : JVal) :
    (∃ m, parse_user_data u d = errResult m 404) ∨
    (∃ m, parse_user_data u d = errResult m 500) ∨
    (∃ a b c subs, parse_user_data u d =
        .obj [("info", extract_general_info u a b c),
              ("solvedStats", extract_solved_stats subs),
              ("status_code", .num 200)]) := by
  cases d with
  | null => exact Or.inr (Or.inl ⟨"Failed to parse user data", rfl⟩)
  | bool b => exact Or.inr (Or.inl ⟨"Failed to parse user data", rfl⟩)
  | num n => exact Or.inr (Or.inl ⟨"Failed to parse user data", rfl⟩)
  | str s =>
    cases hsub : listIsSubstr ("props".data) s.data with
    | false =>
      refine Or.inr (Or.inl ⟨"Invalid data structure", ?_⟩)
      simp [parse_user_data, parse_user_data_body, pyIn, hsub, pym_ok_bind,
            pym_error_bind, pym_pure, errResult]
    | true =>
      refine Or.inr (Or.inl ⟨"Failed to parse user data", ?_⟩)
      simp [parse_user_data, parse_user_data_body, pyIn, pyGetItem, hsub,
            pym_ok_bind, pym_error_bind, pym_pure, errResult]
  | arr xs =>
    cases han : xs.any (fun x => match x with | .str s => s = "props" | _ => false) with
    | false =>
      refine Or.inr (Or.inl ⟨"Invalid data structure", ?_⟩)
      simp [parse_user_data, parse_user_data_body, pyIn, han, pym_ok_bind,
            pym_error_bind, pym_pure, errResult]
    | true =>
      refine Or.inr (Or.inl ⟨"Failed to parse user data", ?_⟩)
      simp [parse_user_data, parse_user_data_body, pyIn, pyGetItem, han,
            pym_ok_bind, pym_error_bind, pym_pure, errResult]
  | obj kvs =>
    cases hp : lookupKey kvs "props" with
    | none =>
      refine Or.inr (Or.inl ⟨"Invalid data structure", ?_⟩)
      simp [parse_user_data, parse_user_data_body, pyIn, hp, pym_ok_bind,
            pym_error_bind, pym_pure, errResult]
    | some props =>
      cases props with
      | null =>
        refine Or.inr (Or.inl ⟨"Failed to parse user data", ?_⟩)
        simp [parse_user_data, parse_user_data_body, pyIn, pyGetItem, hp,
              pym_ok_bind, pym_error_bind, pym_pure, errResult]
      | bool b =>
        refine Or.inr (Or.inl ⟨"Failed to parse user data", ?_⟩)
        simp [parse_user_data, parse_user_data_body, pyIn, pyGetItem, hp,
              pym_ok_bind, pym_error_bind, pym_pure, errResult]
      | num n =>
        refine Or.inr (Or.inl ⟨"Failed to parse user data", ?_⟩)
        simp [parse_user_data, parse_user_data_body, pyIn, pyGetItem, hp,
              pym_ok_bind, pym_error_bind, pym_pure, errResult]
      | str s2 =>
        cases hsub2 : listIsSubstr ("pageProps".data) s2.data with
        | false =>
          refine Or.inr (Or.inl ⟨"Invalid data structure", ?_⟩)
          simp [parse_user_data, parse_user_data_body, pyIn, pyGetItem, hp, hsub2,
                pym_ok_bind, pym_error_bind, pym_pure, errResult]
        | true =>
          refine Or.inr (Or.inl ⟨"Failed to parse user data", ?_⟩)
          simp [parse_user_data, parse_user_data_body, pyIn, pyGetItem, hp, hsub2,
                pym_ok_bind, pym_error_bind, pym_pure, errResult]
      | arr xs2 =>
        cases han2 : xs2.any (fun x => match x with | .str s => s = "pageProps" | _ => false) with
        | false =>
          refine Or.inr (Or.inl ⟨"Invalid data structure", ?_⟩)
          simp [parse_user_data, parse_user_data_body, pyIn, pyGetItem, hp, han2,
                pym_ok_bind, pym_error_bind, pym_pure, errResult]
        | true =>
          refine Or.inr (Or.inl ⟨"Failed to parse user data", ?_⟩)
          simp [parse_user_data, parse_user_data_body, pyIn, pyGetItem, hp, han2,
                pym_ok_bind, pym_error_bind, pym_pure, errResult]
      | obj pkvs =>
        cases hpp : lookupKey pkvs "pageProps" with
        | none =>
          refine Or.inr (Or.inl ⟨"Invalid data structure", ?_⟩)
          simp [parse_user_data, parse_user_data_body, pyIn, pyGetItem, hp, hpp,
                pym_ok_bind, pym_error_bind, pym_pure, errResult]
        | some pp =>
          cases pp with
          | null =>
            refine Or.inr (Or.inl ⟨"Failed to parse user data", ?_⟩)
            simp [parse_user_data, parse_user_data_body, pyIn, pyGetItem, hp, hpp,
                  pym_ok_bind, pym_error_bind, pym_pure, errResult]
          | bool b =>
            refine Or.inr (Or.inl ⟨"Failed to parse user data", ?_⟩)
            simp [parse_user_data, parse_user_data_body, pyIn, pyGetItem, hp, hpp,
                  pym_ok_bind, pym_error_bind, pym_pure, errResult]
          | num n =>
            refine Or.inr (Or.inl ⟨"Failed to parse user data", ?_⟩)
            simp [parse_user_data, parse_user_data_body, pyIn, pyGetItem, hp, hpp,
                  pym_ok_bind, pym_error_bind, pym_pure, errResult]
          | str s3 =>
            cases hsub3 : listIsSubstr ("userInfo".data) s3.data with
            | false =>
              refine Or.inl ⟨"User info not found", ?_⟩
              simp [parse_user_data, parse_user_data_body, pyIn, pyGetItem, hp, hpp,
                    hsub3, pym_ok_bind, pym_error_bind, pym_pure, errResult]
            | true =>
              refine Or.inr (Or.inl ⟨"Failed to parse user data", ?_⟩)
              simp [parse_user_data, parse_user_data_body, pyIn, pyGetItem, hp, hpp,
                    hsub3, pym_ok_bind, pym_error_bind, pym_pure, errResult]
          | arr xs3 =>
            cases han3 : xs3.any (fun x => match x with | .str s => s = "userInfo" | _ => false) with
            | false =>
              refine Or.inl ⟨"User info not found", ?_⟩
              simp [parse_user_data, parse_user_data_body, pyIn, pyGetItem, hp, hpp,
                    han3, pym_ok_bind, pym_error_bind, pym_pure, errResult]
            | true =>
              refine Or.inr (Or.inl ⟨"Failed to parse user data", ?_⟩)
              simp [parse_user_data, parse_user_data_body, pyIn, pyGetItem, hp, hpp,
                    han3, pym_ok_bind, pym_error_bind, pym_pure, errResult]
          | obj ppkvs =>
            cases hui : lookupKey ppkvs "userInfo" with
            | none =>
              refine Or.inl ⟨"User info not found", ?_⟩
              simp [parse_user_data, parse_user_data_body, pyIn, pyGetItem, hp, hpp,
                    hui, pym_ok_bind, pym_error_bind, pym_pure, errResult]
            | some ui =>
              cases huc : lookupD ppkvs "contestData" (JVal.obj []) with
              | obj uckvs =>
                refine Or.inr (Or.inr ⟨ui, .obj uckvs,
                  lookupD uckvs "user_contest_data" (JVal.obj []),
                  lookupD ppkvs "userSubmissionsInfo" (JVal.obj []), ?_⟩)
                simp [parse_user_data, parse_user_data_body, pyIn, pyGetItem, pyGet,
                      hp, hpp, hui, huc, pym_ok_bind, pym_error_bind, pym_pure]
              | null =>
                refine Or.inr (Or.inl ⟨"Failed to parse user data", ?_⟩)
                simp [parse_user_data, parse_user_data_body, pyIn, pyGetItem, pyGet,
                      hp, hpp, hui, huc, pym_ok_bind, pym_error_bind, pym_pure, errResult]
              | bool b =>
                refine Or.inr (Or.inl ⟨"Failed to parse user data", ?_⟩)
                simp [parse_user_data, parse_user_data_body, pyIn, pyGetItem, pyGet,
                      hp, hpp, hui, huc, pym_ok_bind, pym_error_bind, pym_pure, errResult]
              | num n =>
                refine Or.inr (Or.inl ⟨"Failed to parse user data", ?_⟩)
                simp [parse_user_data, parse_user_data_body, pyIn, pyGetItem, pyGet,
                      hp, hpp, hui, huc, pym_ok_bind, pym_error_bind, pym_pure, errResult]
              | str s4 =>
                refine Or.inr (Or.inl ⟨"Failed to parse user data", ?_⟩)
                simp [parse_user_data, parse_user_data_body, pyIn, pyGetItem, pyGet,
                      hp, hpp, hui, huc, pym_ok_bind, pym_error_bind, pym_pure, errResult]
              | arr xs4 =>
                refine Or.inr (Or.inl ⟨"Failed to parse user data", ?_⟩)
                simp [parse_user_data, parse_user_data_body, pyIn, pyGetItem, pyGet,
                      hp, hpp, hui, huc, pym_ok_bind, pym_error_bind, pym_pure, errResult]

theorem fetchResponse_cases (u : String) (r : FetchResult) :
    (∃ m, fetchResponse u r = errResult m 404) ∨
    (∃ m, fetchResponse u r = errResult m 500) ∨
    (∃ m, fetchResponse u r = errResult m 504) ∨
    (∃ a b c subs, fetchResponse u r =
        .obj [("info", extract_general_info u a b c),
              ("solvedStats", extract_solved_stats subs),
              ("status_code", .num 200)]) := by
  cases r with
  | exc e =>
    cases e with
    | timeout m => exact Or.inr (Or.inr (Or.inl ⟨"Request timed out", rfl⟩))
    | connectionError m =>
      exact Or.inr (Or.inl ⟨"Request failed: " ++ m, rfl⟩)
    | httpError s m =>
      exact Or.inr (Or.inl ⟨"Request failed: " ++ m, rfl⟩)
  | excOther => exact Or.inr (Or.inl ⟨"An unexpected error occurred", rfl⟩)
  | response status page =>
    by_cases h404 : status = 404
    · exact Or.inl ⟨"Profile not found", by simp [fetchResponse, h404]⟩
    · by_cases hrange : 400 ≤ status ∧ status < 600
      · refine Or.inr (Or.inl ⟨"Request failed: " ++ httpErrorMsg status, ?_⟩)
        simp [fetchResponse, h404, hrange, scraperExcHandler, ReqExc.isTimeout,
              ReqExc.msg]
      · cases page with
        | absent =>
          exact Or.inl ⟨"Could not find user data", by simp [fetchResponse, h404, hrange]⟩
        | malformed =>
          exact Or.inr (Or.inl ⟨"Failed to parse user data",
            by simp [fetchResponse, h404, hrange]⟩)
        | present d =>
          have hfd : fetchResponse u (.response status (.present d)) = parse_user_data u d := by
            simp [fetchResponse, h404, hrange]
          rcases parse_user_data_cases u d with ⟨m, hm⟩ | ⟨m, hm⟩ | ⟨a, b, c, subs, hm⟩
          · exact Or.inl ⟨m, by rw [hfd, hm]⟩
          · exact Or.inr (Or.inl ⟨m, by rw [hfd, hm]⟩)
          · exact Or.inr (Or.inr (Or.inr ⟨a, b, c, subs, by rw [hfd, hm]⟩))

theorem parse_calendar_data_cases (ci : JVal) :
    (∃ m, parse_calendar_data ci = .obj [("error", .str m)]) ∨
    (∃ c rr, parse_calendar_data ci =
        .obj [("Total Submissions", c), ("Submission Dates", rr)]) := by
  cases ci with
  | null => exact Or.inl ⟨"Failed to parse calendar data", rfl⟩
  | bool b => exact Or.inl ⟨"Failed to parse calendar data", rfl⟩
  | num n => exact Or.inl ⟨"Failed to parse calendar data", rfl⟩
  | str s =>
    cases h1 : listIsSubstr ("count".data) s.data with
    | false =>
      refine Or.inl ⟨"Unexpected API response format", ?_⟩
      simp [parse_calendar_data, parse_calendar_data_body, pyIn, h1, pym_ok_bind,
            pym_error_bind, pym_pure]
    | true =>
      cases h2 : listIsSubstr ("result".data) s.data with
      | false =>
        refine Or.inl ⟨"Unexpected API response format", ?_⟩
        simp [parse_calendar_data, parse_calendar_data_body, pyIn, h1, h2,
              pym_ok_bind, pym_error_bind, pym_pure]
      | true =>
        refine Or.inl ⟨"Failed to parse calendar data", ?_⟩
        simp [parse_calendar_data, parse_calendar_data_body, pyIn, pyGetItem,
              h1, h2, pym_ok_bind, pym_error_bind, pym_pure]
  | arr xs =>
    cases h1 : xs.any (fun x => match x with | .str s => s = "count" | _ => false) with
    | false =>
      refine Or.inl ⟨"Unexpected API response format", ?_⟩
      simp [parse_calendar_data, parse_calendar_data_body, pyIn, h1, pym_ok_bind,
            pym_error_bind, pym_pure]
    | true =>
      cases h2 : xs.any (fun x => match x with | .str s => s = "result" | _ => false) with
      | false =>
        refine Or.inl ⟨"Unexpected API response format", ?_⟩
        simp [parse_calendar_data, parse_calendar_data_body, pyIn, h1, h2,
              pym_ok_bind, pym_error_bind, pym_pure]
      | true =>
        refine Or.inl ⟨"Failed to parse calendar data", ?_⟩
        simp [parse_calendar_data, parse_calendar_data_body, pyIn, pyGetItem,
              h1, h2, pym_ok_bind, pym_error_bind, pym_pure]
  | obj kvs =>
    cases h1 : lookupKey kvs "count" with
    | none =>
      refine Or.inl ⟨"Unexpected API response format", ?_⟩
      simp [parse_calendar_data, parse_calendar_data_body, pyIn, h1, pym_ok_bind,
            pym_error_bind, pym_pure]
    | some c =>
      cases h2 : lookupKey kvs "result" with
      | none =>
        refine Or.inl ⟨"Unexpected API response format", ?_⟩
        simp [parse_calendar_data, parse_calendar_data_body, pyIn, h1, h2,
              pym_ok_bind, pym_error_bind, pym_pure]
      | some rr =>
        refine Or.inr ⟨c, rr, ?_⟩
        simp [parse_calendar_data, parse_calendar_data_body, pyIn, pyGetItem,
              h1, h2, pym_ok_bind, pym_error_bind, pym_pure]

theorem calendar_fetch_response_cases (u : String) (y : Int) (r : ApiResult) :
    (∃ m, calendar_fetch_response u y r = .obj [("error", .str m)]) ∨
    (∃ c rr, calendar_fetch_response u y r =
        .obj [("Total Submissions", c), ("Submission Dates", rr)]) := by
  cases r with
  | exc e => exact Or.inl ⟨"Request failed: " ++ e.msg, rfl⟩
  | response status body =>
    by_cases hrange : 400 ≤ status ∧ status < 600
    · refine Or.inl ⟨"Request failed: " ++ httpErrorMsg status, ?_⟩
      simp [calendar_fetch_response, hrange, requestExcResult, ReqExc.msg]
    · cases body with
      | malformed m =>
        refine Or.inl ⟨"Failed to parse JSON response: " ++ m, ?_⟩
        simp [calendar_fetch_response, hrange]
      | doc d =>
        have hcd : calendar_fetch_response u y (.response status (.doc d)) =
            parse_calendar_data d := by
          simp [calendar_fetch_response, hrange]
        rcases parse_calendar_data_cases d with ⟨m, hm⟩ | ⟨c, rr, hm⟩
        · exact Or.inl ⟨m, by rw [hcd, hm]⟩
        · exact Or.inr ⟨c, rr, by rw [hcd, hm]⟩

theorem parse_contest_data_cases (ci : JVal) :
    (∃ m, parse_contest_data ci = .obj [("error", .str m)]) ∨
    (∃ level rank grank tot det, parse_contest_data ci =
        .obj [("Contest Data", .obj [("Level", level), ("Rank", rank),
                ("Global Rank", grank), ("Total Contests", tot)]),
              ("Contest Details", det)]) := by
  cases ci with
  | null => exact Or.inl ⟨"Failed to parse contest data", rfl⟩
  | bool b => exact Or.inl ⟨"Failed to parse contest data", rfl⟩
  | num n => exact Or.inl ⟨"Failed to parse contest data", rfl⟩
  | str s =>
    cases h1 : listIsSubstr ("user_global_rank".data) s.data with
    | false =>
      refine Or.inl ⟨"Unexpected API response format", ?_⟩
      simp [parse_contest_data, parse_contest_data_body, pyIn, h1, pym_ok_bind,
            pym_error_bind, pym_pure]
    | true =>
      cases h2 : listIsSubstr ("star_colour_codes".data) s.data with
      | false =>
        refine Or.inl ⟨"Unexpected API response format", ?_⟩
        simp [parse_contest_data, parse_contest_data_body, pyIn, h1, h2,
              pym_ok_bind, pym_error_bind, pym_pure]
      | true =>
        refine Or.inl ⟨"Failed to parse contest data", ?_⟩
        simp [parse_contest_data, parse_contest_data_body, pyIn, pyGetItem,
              h1, h2, pym_ok_bind, pym_error_bind, pym_pure]
  | arr xs =>
    cases h1 : xs.any (fun x => match x with | .str s => s = "user_global_rank" | _ => false) with
    | false =>
      refine Or.inl ⟨"Unexpected API response format", ?_⟩
      simp [parse_contest_data, parse_contest_data_body, pyIn, h1, pym_ok_bind,
            pym_error_bind, pym_pure]
    | true =>
      cases h2 : xs.any (fun x => match x with | .str s => s = "star_colour_codes" | _ => false) with
      | false =>
        refine Or.inl ⟨"Unexpected API response format", ?_⟩
        simp [parse_contest_data, parse_contest_data_body, pyIn, h1, h2,
              pym_ok_bind, pym_error_bind, pym_pure]
      | true =>
        refine Or.inl ⟨"Failed to parse contest data", ?_⟩
        simp [parse_contest_data, parse_contest_data_body, pyIn, pyGetItem,
              h1, h2, pym_ok_bind, pym_error_bind, pym_pure]
  | obj kvs =>
    cases h1 : lookupKey kvs "user_global_rank" with
    | none =>
      refine Or.inl ⟨"Unexpected API response format", ?_⟩
      simp [parse_contest_data, parse_contest_data_body, pyIn, h1, pym_ok_bind,
            pym_error_bind, pym_pure]
    | some grank =>
      cases h2 : lookupKey kvs "star_colour_codes" with
      | none =>
        refine Or.inl ⟨"Unexpected API response format", ?_⟩
        simp [parse_contest_data, parse_contest_data_body, pyIn, h1, h2,
              pym_ok_bind, pym_error_bind, pym_pure]
      | some scc =>
        cases h3 : lookupKey kvs "user_stars" with
        | none =>
          refine Or.inl ⟨"Failed to parse contest data", ?_⟩
          simp [parse_contest_data, parse_contest_data_body, pyIn, pyGetItem,
                h1, h2, h3, pym_ok_bind, pym_error_bind, pym_pure]
        | some level =>
          cases h4 : lookupKey kvs "user_contest_data" with
          | none =>
            refine Or.inl ⟨"Failed to parse contest data", ?_⟩
            simp [parse_contest_data, parse_contest_data_body, pyIn, pyGetItem,
                  h1, h2, h3, h4, pym_ok_bind, pym_error_bind, pym_pure]
          | some ucd =>
            cases ucd with
            | obj uckvs =>
              cases h5 : lookupKey uckvs "current_rating" with
              | none =>
                refine Or.inl ⟨"Failed to parse contest data", ?_⟩
                simp [parse_contest_data, parse_contest_data_body, pyIn, pyGetItem,
                      h1, h2, h3, h4, h5, pym_ok_bind, pym_error_bind, pym_pure]
              | some rank =>
                cases h6 : lookupKey uckvs "no_of_participated_contest" with
                | none =>
                  refine Or.inl ⟨"Failed to parse contest data", ?_⟩
                  simp [parse_contest_data, parse_contest_data_body, pyIn, pyGetItem,
                        h1, h2, h3, h4, h5, h6, pym_ok_bind, pym_error_bind, pym_pure]
                | some tot =>
                  cases h7 : lookupKey uckvs "contest_data" with
                  | none =>
                    refine Or.inl ⟨"Failed to parse contest data", ?_⟩
                    simp [parse_contest_data, parse_contest_data_body, pyIn, pyGetItem,
                          h1, h2, h3, h4, h5, h6, h7, pym_ok_bind, pym_error_bind, pym_pure]
                  | some det =>
                    refine Or.inr ⟨level, rank, grank, tot, det, ?_⟩
                    simp [parse_contest_data, parse_contest_data_body, pyIn, pyGetItem,
                          h1, h2, h3, h4, h5, h6, h7, pym_ok_bind, pym_error_bind, pym_pure]
            | null =>
              refine Or.inl ⟨"Failed to parse contest data", ?_⟩
              simp [parse_contest_data, parse_contest_data_body, pyIn, pyGetItem,
                    h1, h2, h3, h4, pym_ok_bind, pym_error_bind, pym_pure]
            | bool b =>
              refine Or.inl ⟨"Failed to parse contest data", ?_⟩
              simp [parse_contest_data, parse_contest_data_body, pyIn, pyGetItem,
                    h1, h2, h3, h4, pym_ok_bind, pym_error_bind, pym_pure]
            | num n =>
              refine Or.inl ⟨"Failed to parse contest data", ?_⟩
              simp [parse_contest_data, parse_contest_data_body, pyIn, pyGetItem,
                    h1, h2, h3, h4, pym_ok_bind, pym_error_bind, pym_pure]
            | str s4 =>
              refine Or.inl ⟨"Failed to parse contest data", ?_⟩
              simp [parse_contest_data, parse_contest_data_body, pyIn, pyGetItem,
                    h1, h2, h3, h4, pym_ok_bind, pym_error_bind, pym_pure]
            | arr xs4 =>
              refine Or.inl ⟨"Failed to parse contest data", ?_⟩
              simp [parse_contest_data, parse_contest_data_body, pyIn, pyGetItem,
                    h1, h2, h3, h4, pym_ok_bind, pym_error_bind, pym_pure]

theorem contest_fetch_response_cases (u : String) (y : Int) (r : ApiResult) :
    (∃ m, contest_fetch_response u y r = .obj [("error", .str m)]) ∨
    (∃ level rank grank tot det, contest_fetch_response u y r =
        .obj [("Contest Data", .obj [("Level", level), ("Rank", rank),
                ("Global Rank", grank), ("Total Contests", tot)]),
              ("Contest Details", det)]) := by
  cases r with
  | exc e => exact Or.inl ⟨"Request failed: " ++ e.msg, rfl⟩
  | response status body =>
    by_cases hrange : 400 ≤ status ∧ status < 600
    · refine Or.inl ⟨"Request failed: " ++ httpErrorMsg status, ?_⟩
      simp [contest_fetch_response, hrange, requestExcResult, ReqExc.msg]
    · cases body with
      | malformed m =>
        refine Or.inl ⟨"Failed to parse JSON response: " ++ m, ?_⟩
        simp [contest_fetch_response, hrange]
      | doc d =>
        have hcd : contest_fetch_response u y (.response status (.doc d)) =
            parse_contest_data d := by
          simp [contest_fetch_response, hrange]
        rcases parse_contest_data_cases d with ⟨m, hm⟩ | ⟨a, b, c, e, f, hm⟩
        · exact Or.inl ⟨m, by rw [hcd, hm]⟩
        · exact Or.inr ⟨a, b, c, e, f, by rw [hcd, hm]⟩

/-! ## Routing lemmas -/

theorem route_errResult (m : String) (c : Int) :
    route_result (errResult m c) = (errResult m c, .num c) := rfl

theorem route_bareError (m : String) :
    route_result (.obj [("error", .str m)]) = (.obj [("error", .str m)], .num 500) := rfl

theorem route_profile_success (i s : JVal) :
    route_result (.obj [("info", i), ("solvedStats", s), ("status_code", .num 200)]) =
      (.obj [("info", i), ("solvedStats", s), ("status_code", .num 200)], .num 200) := rfl

theorem route_calendar_success (c rr : JVal) :
    route_result (.obj [("Total Submissions", c), ("Submission Dates", rr)]) =
      (.obj [("Total Submissions", c), ("Submission Dates", rr)], .num 200) := rfl

theorem route_contest_success (cd det : JVal) :
    route_result (.obj [("Contest Data", cd), ("Contest Details", det)]) =
      (.obj [("Contest Data", cd), ("Contest Details", det)], .num 200) := rfl

theorem hasKey_errResult (m : String) (c : Int) :
    hasKey (errResult m c) "error" = true := rfl

theorem hasKey_bareError (m : String) :
    hasKey (.obj [("error", .str m)]) "error" = true := rfl

/-! ## Retry-loop bound -/

theorem retryLoop_le (cfg : RetryConfig) (o : Nat → Attempt) :
    ∀ fuel i, retryLoop cfg o fuel i ≤ i + fuel + 1 := by
  intro fuel
  induction fuel with
  | zero => intro i; simp [retryLoop]
  | succ f ih =>
    intro i
    rw [retryLoop]
    split
    · have := ih (i + 1)
      omega
    · omega

/-! ## Clean-input behaviour of the solved-stats extraction -/

/-- The question record built for one problem-detail dict. -/
def questionOf (details : List (String × JVal)) : JVal :=
  .obj [("question", lookupD details "pname" (.str "")),
        ("questionUrl", .str (problemsUrl ++ pyStr (lookupD details "slug" (.str ""))))]

/-- Packages a list of difficulties, each a list of problem-id/detail pairs,
as the userSubmissionsInfo JSON object. -/
def subsOf (diffs : List (String × List (String × List (String × JVal)))) : JVal :=
  .obj (diffs.map (fun d => (d.1, .obj (d.2.map (fun p => (p.1, .obj p.2))))))

theorem mkQuestion_obj (det : List (String × JVal)) :
    mkQuestion (.obj det) = .ok (questionOf det) := rfl

theorem mapQuestions_objs (ps : List (String × List (String × JVal))) :
    mapQuestions (ps.map (fun p => (p.1, .obj p.2))) =
      .ok (ps.map (fun p => questionOf p.2)) := by
  induction ps with
  | nil => rfl
  | cons p rest ih =>
    simp only [List.map_cons, mapQuestions, mkQuestion_obj, pym_ok_bind, ih, pym_pure]

theorem solvedLoop_clean
    (diffs : List (String × List (String × List (String × JVal)))) :
    ∀ acc,
      (∀ d ∈ diffs, lookupKey acc (strLower d.1) = none) →
      (diffs.map (fun d => strLower d.1)).Nodup →
      solvedLoop acc (diffs.map (fun d => (d.1, .obj (d.2.map (fun p => (p.1, .obj p.2)))))) =
        .ok (acc ++ diffs.map (fun d =>
          (strLower d.1, statsEntry (d.2.map (fun p => questionOf p.2))))) := by
  induction diffs with
  | nil => intro acc _ _; simp [solvedLoop]
  | cons d rest ih =>
    intro acc hfresh hnodup
    simp only [List.map_cons, solvedLoop, mapQuestions_objs, pym_ok_bind]
    rw [insertAssoc_of_none _ _ _ (hfresh d (List.mem_cons_self d rest))]
    rw [List.map_cons, List.nodup_cons] at hnodup
    have hne : ∀ e ∈ rest, strLower e.1 ≠ strLower d.1 := by
      intro e he heq
      exact hnodup.1 (heq ▸ List.mem_map_of_mem (fun x => strLower x.1) he)
    have hfresh' : ∀ e ∈ rest,
        lookupKey (acc ++ [(strLower d.1, statsEntry (d.2.map (fun p => questionOf p.2)))])
          (strLower e.1) = none := by
      intro e he
      rw [lookupKey_append_of_none _ _ _ (hfresh e (List.mem_cons_of_mem d he))]
      rw [lookupKey_cons]
      simp [Ne.symm (hne e he), lookupKey_nil]
    have := ih _ hfresh' hnodup.2
    rw [this]
    simp

theorem extract_solved_stats_clean
    (diffs : List (String × List (String × List (String × JVal))))
    (hnodup : (diffs.map (fun d => strLower d.1)).Nodup) :
    extract_solved_stats (subsOf diffs) =
      .obj (diffs.map (fun d =>
        (strLower d.1, statsEntry (d.2.map (fun p => questionOf p.2))))) := by
  simp only [extract_solved_stats, subsOf]
  rw [solvedLoop_clean diffs [] (fun d _ => rfl) hnodup]
  simp

/-! ## The username pattern of the specification -/

/-- Follows the spec's words: the language of the anchored regular expression
caret [A-Za-z0-9_-]+ dollar read mathematically, that is a nonempty string
made only of class characters. Stated separately from validate_username so
the two can be compared. -/
def specUsernameLang (s : String) : Bool :=
  decide (s.data ≠ []) && s.data.all isUsernameChar

theorem isUsernameChar_newline : isUsernameChar (Char.ofNat 10) = false := by decide

theorem validate_username_eq (s : String) :
    validate_username s =
      (specUsernameLang s ||
        (specUsernameLang ⟨s.data.dropLast⟩ &&
          decide (s.data.getLast? = some (Char.ofNat 10)))) := by
  cases h : s.data.getLast? with
  | none =>
    have hnil : s.data = [] := List.getLast?_eq_none_iff.mp h
    simp [validate_username, specUsernameLang, h, hnil]
  | some c =>
    have hmem : c ∈ s.data := by
      rcases List.mem_getLast?_eq_getLast (show c ∈ s.data.getLast? from h) with ⟨h', hc⟩
      exact hc ▸ List.getLast_mem h'
    by_cases hc : c = Char.ofNat 10
    · subst hc
      have hall : s.data.all isUsernameChar = false := by
        by_contra hcontra
        simp only [Bool.not_eq_false] at hcontra
        have := List.all_eq_true.mp hcontra (Char.ofNat 10) hmem
        rw [isUsernameChar_newline] at this
        cases this
      simp [validate_username, specUsernameLang, h, hall]
    · have hne : ¬(s.data.getLast? = some (Char.ofNat 10)) := by
        rw [h]
        intro hcontra
        exact hc (Option.some_injective _ hcontra)
      simp [validate_username, specUsernameLang, h, hne, hc]

/-! ## Claims -/

/-- C1 counterexample: on a profile page whose embedded userInfo value is not
a mapping, Scraper._parse_user_data returns the success variant (no error
key, status_code 200) whose info field is the empty placeholder dict
produced by the except clause of _extract_general_info — contradicting the
claim that no input yields a success with a field replaced by an empty
placeholder object. -/
theorem c1_counterexample :
    parse_user_data "alice"
        (.obj [("props", .obj [("pageProps", .obj [("userInfo", .num 0)])])]) =
      .obj [("info", .obj []), ("solvedStats", .obj []), ("status_code", .num 200)] ∧
    hasKey (parse_user_data "alice"
        (.obj [("props", .obj [("pageProps", .obj [("userInfo", .num 0)])])]))
      "error" = false :=
  ⟨rfl, rfl⟩

/-- C1 (amended): every extractor returns either an ErrorResult or the success
variant; for the profile extractor the info field of a success is either
the fully-populated twelve-field dict or the empty fallback dict of its
except clause, and every solvedStats entry is fully populated with count
equal to the length of its questions; calendar and contest successes are
always fully populated. -/
theorem c1_extractor_results :
    (∀ u d , (∃ m c, parse_user_data u d = errResult m c) ∨
      (∃ info solved, parse_user_data u d =
          .obj [("info", info), ("solvedStats", solved), ("status_code", .num 200)] ∧
        infoPopulated info = true ∧ statsPopulated solved = true)) ∧
    (∀ u y r, (∃ m, calendar_fetch_response u y r = .obj [("error", .str m)]) ∨
      (∃ c rr, calendar_fetch_response u y r =
          .obj [("Total Submissions", c), ("Submission Dates", rr)])) ∧
    (∀ u y r, (∃ m, contest_fetch_response u y r = .obj [("error", .str m)]) ∨
      (∃ level rank grank tot det, contest_fetch_response u y r =
          .obj [("Contest Data", .obj [("Level", level), ("Rank", rank),
                  ("Global Rank", grank), ("Total Contests", tot)]),
                ("Contest Details", det)])) := by
  refine ⟨?_, ?_, ?_⟩
  · intro u d
    rcases parse_user_data_cases u d with ⟨m, hm⟩ | ⟨m, hm⟩ | ⟨a, b, c, subs, hm⟩
    · exact Or.inl ⟨m, 404, hm⟩
    · exact Or.inl ⟨m, 500, hm⟩
    · exact Or.inr ⟨extract_general_info u a b c, extract_solved_stats subs, hm,
        extract_general_info_populated u a b c, extract_solved_stats_populated subs⟩
  · intro u y r
    exact calendar_fetch_response_cases u y r
  · intro u y r
    exact contest_fetch_response_cases u y r

/-- C2 counterexample: when every attempt is answered 503 the configured
session makes 4 upstream attempts, not the 3 the claim states — urllib3
Retry(total=3) allows 3 retries after the initial request, as the code
comment "number of retries" itself says. -/
theorem c2_counterexample :
    attemptsMade scraperRetryConfig (fun _ => Attempt.status 503) = 4 ∧
    attemptsMade scraperRetryConfig (fun _ => Attempt.status 503) ≠ 3 :=
  ⟨rfl, by decide⟩

/-- C2 (amended): an all-503 upstream produces exactly 4 attempts (1 initial
plus 3 retries); a retry is triggered exactly on statuses 429, 500, 502,
503, 504 or a connection-level failure; backoff_factor 1 gives waits of
1, 2, 4 seconds, doubling per retry; and no outcome sequence ever causes
more than 4 attempts. -/
theorem c2_retry_policy :
    attemptsMade scraperRetryConfig (fun _ => Attempt.status 503) = 4 ∧
    (∀ o : Nat → Attempt, attemptsMade scraperRetryConfig o = 1 ∨
        shouldRetry scraperRetryConfig (o 0) = true) ∧
    (∀ c : Nat, shouldRetry scraperRetryConfig (.status c) = true ↔
        c ∈ [429, 500, 502, 503, 504]) ∧
    shouldRetry scraperRetryConfig .connFail = true ∧
    [1, 2, 3].map (backoffDelay scraperRetryConfig) = [1, 2, 4] ∧
    (∀ n, backoffDelay scraperRetryConfig (n + 2) =
        2 * backoffDelay scraperRetryConfig (n + 1)) ∧
    (∀ o, attemptsMade scraperRetryConfig o ≤ 4) := by
  refine ⟨rfl, ?_, ?_, rfl, by decide, ?_, ?_⟩
  · intro o
    cases hs : shouldRetry scraperRetryConfig (o 0) with
    | true => exact Or.inr rfl
    | false =>
      left
      have hs' : shouldRetry ⟨3, 1, [429, 500, 502, 503, 504]⟩ (o 0) = false := hs
      simp [attemptsMade, scraperRetryConfig, retryLoop, hs']
  · intro c
    simp [shouldRetry, scraperRetryConfig]
  · intro n
    simp [backoffDelay, scraperRetryConfig, pow_succ]
    ring
  · intro o
    have := retryLoop_le scraperRetryConfig o 3 0
    simpa [attemptsMade, scraperRetryConfig] using this

/-- C3: the lru_cache of Calendar.fetch_response is keyed by the bound self
argument, and the route constructs a fresh Calendar instance per request,
so two requests with the identical (username, year) both miss the cache
and both reach the upstream — the claim's promised single upstream call
does not happen, whatever the fetcher returns. -/
theorem c3_cache_never_hits (fetcher : String → Int → JVal) :
    (runCalendarRequests fetcher initialCalendarAppState
        [("alice", 2024), ("alice", 2024)]).upstreamCalls = 2 := rfl

/-- C4 counterexample: a parsed document that has no userInfo sub-object
because it lacks the props wrapper entirely is answered with the
Invalid-data-structure 500 result, not with statusCode 404 as the claim
states for every document missing userInfo. -/
theorem c4_counterexample :
    parse_user_data "alice" (.obj []) = errResult "Invalid data structure" 500 ∧
    errResult "Invalid data structure" 500 ≠ errResult "User info not found" 404 := by
  refine ⟨rfl, ?_⟩
  intro h
  simp [errResult] at h

/-- C4 (amended): an upstream 404 yields the Profile-not-found 404 result; a
fetched page without the embedded document yields 404; a present but
malformed embedded document yields 500; a parsed document with the
props.pageProps wrapper but no userInfo yields 404, while a document
missing the props wrapper itself yields the Invalid-data-structure 500. -/
theorem c4_profile_error_mapping :
    (∀ u page, fetchResponse u (.response 404 page) =
        errResult "Profile not found" 404) ∧
    (∀ u, fetchResponse u (.response 200 .absent) =
        errResult "Could not find user data" 404) ∧
    (∀ u, fetchResponse u (.response 200 .malformed) =
        errResult "Failed to parse user data" 500) ∧
    (∀ u pp, (lookupKey pp "userInfo").isSome = true ∨
      parse_user_data u (.obj [("props", .obj [("pageProps", .obj pp)])]) =
        errResult "User info not found" 404) ∧
    (∀ u kvs, (lookupKey kvs "props").isSome = true ∨
      parse_user_data u (.obj kvs) = errResult "Invalid data structure" 500) := by
  refine ⟨fun u page => rfl, fun u => rfl, fun u => rfl, ?_, ?_⟩
  · intro u pp
    cases h : lookupKey pp "userInfo" with
    | some v => exact Or.inl (by simp [h])
    | none =>
      refine Or.inr ?_
      simp [parse_user_data, parse_user_data_body, pyIn, pyGetItem, h,
            lookupKey_cons, lookupKey_nil, pym_ok_bind, pym_error_bind, pym_pure,
            errResult]
  · intro u kvs
    cases h : lookupKey kvs "props" with
    | some v => exact Or.inl (by simp [h])
    | none =>
      refine Or.inr ?_
      simp [parse_user_data, parse_user_data_body, pyIn, h, pym_ok_bind,
            pym_error_bind, pym_pure, errResult]

/-- C5 counterexample: a calendar failure (an upstream body missing the
count/result fields) is the bare dict with only an error message — it
carries no statusCode field, contradicting the claimed uniform
{error, statusCode} failure shape across all three extractors. -/
theorem c5_counterexample :
    calendar_fetch_response "alice" 2024 (.response 200 (.doc (.obj []))) =
      .obj [("error", .str "Unexpected API response format")] ∧
    hasKey (calendar_fetch_response "alice" 2024 (.response 200 (.doc (.obj []))))
      "status_code" = false :=
  ⟨rfl, rfl⟩

/-- C5 (amended): profile-extractor failures carry both error and status_code;
calendar and contest failures consist of the error message alone, and the
router substitutes the default 500 for their missing status_code. -/
theorem c5_error_shapes :
    (∀ u r, hasKey (fetchResponse u r) "error" = false ∨
        hasKey (fetchResponse u r) "status_code" = true) ∧
    (∀ u y r, hasKey (calendar_fetch_response u y r) "error" = false ∨
        isBareError (calendar_fetch_response u y r) = true) ∧
    (∀ u y r, hasKey (contest_fetch_response u y r) "error" = false ∨
        isBareError (contest_fetch_response u y r) = true) ∧
    (∀ m, route_result (.obj [("error", .str m)]) =
        (.obj [("error", .str m)], .num 500)) := by
  refine ⟨?_, ?_, ?_, route_bareError⟩
  · intro u r
    rcases fetchResponse_cases u r with ⟨m, hm⟩ | ⟨m, hm⟩ | ⟨m, hm⟩ | ⟨a, b, c, subs, hm⟩ <;>
      rw [hm]
    · exact Or.inr rfl
    · exact Or.inr rfl
    · exact Or.inr rfl
    · exact Or.inl rfl
  · intro u y r
    rcases calendar_fetch_response_cases u y r with ⟨m, hm⟩ | ⟨c, rr, hm⟩ <;> rw [hm]
    · exact Or.inr rfl
    · exact Or.inl rfl
  · intro u y r
    rcases contest_fetch_response_cases u y r with ⟨m, hm⟩ | ⟨a, b, c, e, f, hm⟩ <;> rw [hm]
    · exact Or.inr rfl
    · exact Or.inl rfl

/-- C6 counterexample: a timeout of the calendar fetch is swallowed by the
RequestException clause — the result is the generic request-failure dict
without a status_code, and the router maps it to 500, not to the claimed
distinct Timeout kind with 504. -/
theorem c6_counterexample :
    calendar_fetch_response "alice" 2024 (.exc (.timeout "Read timed out")) =
      .obj [("error", .str "Request failed: Read timed out")] ∧
    (route_result (calendar_fetch_response "alice" 2024
        (.exc (.timeout "Read timed out")))).2 = .num 500 :=
  ⟨rfl, rfl⟩

/-- C6 (amended): only the profile extractor reports a timeout distinctly
(Request timed out, 504, with a 30-second timeout); the calendar and
contest extractors use 10-second timeouts but report a timeout as a
generic request failure without a status_code, which the router maps to
500. -/
theorem c6_timeout_handling :
    (∀ u m, fetchResponse u (.exc (.timeout m)) =
        errResult "Request timed out" 504) ∧
    (∀ u m, (route_result (fetchResponse u (.exc (.timeout m)))).2 = .num 504) ∧
    Scraper_TIMEOUT = 30 ∧ Calendar_TIMEOUT = 10 ∧ Contest_TIMEOUT = 10 ∧
    (∀ u y m, calendar_fetch_response u y (.exc (.timeout m)) =
        .obj [("error", .str ("Request failed: " ++ m))]) ∧
    (∀ u y m, contest_fetch_response u y (.exc (.timeout m)) =
        .obj [("error", .str ("Request failed: " ++ m))]) ∧
    (∀ u y m, (route_result (calendar_fetch_response u y
        (.exc (.timeout m)))).2 = .num 500) ∧
    (∀ u y m, (route_result (contest_fetch_response u y
        (.exc (.timeout m)))).2 = .num 500) :=
  ⟨fun u m => rfl, fun u m => rfl, rfl, rfl, rfl,
   fun u y m => rfl, fun u y m => rfl, fun u y m => rfl, fun u y m => rfl⟩

/-- C7 counterexample: the string abc followed by a newline is outside the
language of the anchored pattern, yet validate_username accepts it — the
Python dollar anchor also matches just before one trailing newline. -/
theorem c7_counterexample :
    specUsernameLang "abc\n" = false ∧ validate_username "abc\n" = true :=
  ⟨rfl, rfl⟩

/-- C7 (amended): validate_username accepts exactly the strings of the
pattern language plus those same strings with one extra trailing newline;
whenever it rejects, each of the three routes answers with the
invalid-username 400 body. -/
theorem c7_username_validation :
    (∀ s, validate_username s =
        (specUsernameLang s ||
          (specUsernameLang ⟨s.data.dropLast⟩ &&
            decide (s.data.getLast? = some (Char.ofNat 10))))) ∧
    (∀ s r, validate_username s = true ∨
        profile_route s r = invalidUsernameResponse) ∧
    (∀ s y r, validate_username s = true ∨
        calendar_route s y r = invalidUsernameResponse) ∧
    (∀ s y r, validate_username s = true ∨
        contest_route s y r = invalidUsernameResponse) := by
  refine ⟨validate_username_eq, ?_, ?_, ?_⟩
  · intro s r
    cases hv : validate_username s with
    | true => exact Or.inl rfl
    | false => exact Or.inr (by simp [profile_route, hv])
  · intro s y r
    cases hv : validate_username s with
    | true => exact Or.inl rfl
    | false => exact Or.inr (by simp [calendar_route, hv])
  · intro s y r
    cases hv : validate_username s with
    | true => exact Or.inl rfl
    | false => exact Or.inr (by simp [contest_route, hv])

/-- C8: with the configuration of src/app.py only the decorated 10-per-minute
limit is live: the 51st request of an hour (spread one per minute) is
admitted even though the hour window already holds 50 requests, because
default_limits_exempt_when always exempts the 50/hour and 200/day default
limits; the per-minute limit itself still answers the 11th request of a
minute with the 429 body. -/
theorem c8_rate_limit_evaluation :
    (limiterDecisions [] ((List.range 51).map (fun i => i * 60))).getLast? =
      some true ∧
    fixedWindowCount ((List.range 50).map (fun i => i * 60))
      RATE_LIMIT_PER_HOUR 3000 = 50 ∧
    (∀ h, limiterGate ((List.range 50).map (fun i => i * 60)) 3000 h = h) ∧
    (limiterDecisions [] (List.replicate 11 0)).getLast? = some false ∧
    limiterGate (List.replicate 10 0) 0 (JVal.null, JVal.null) =
      ratelimitResponse := by
  refine ⟨by decide, by decide, ?_, by decide, ?_⟩
  · intro h
    have hallow : allowRequest ((List.range 50).map (fun i => i * 60)) 3000 = true := by
      decide
    simp [limiterGate, hallow]
  · have hblock : allowRequest (List.replicate 10 0) 0 = false := by decide
    unfold limiterGate
    rw [hblock]
    simp

/-- C9: on a userSubmissionsInfo mapping whose lowercased difficulty keys are
pairwise distinct, the solved-stats output maps each difficulty to its
lowercased key, a count equal to the number of problems, and the question
records built in upstream order; a problem-detail dict without a slug gets
the bare URL prefix with an empty suffix. -/
theorem c9_solved_stats
    (diffs : List (String × List (String × List (String × JVal))))
    (hnodup : (diffs.map (fun d => strLower d.1)).Nodup) :
    extract_solved_stats (subsOf diffs) =
      .obj (diffs.map (fun d =>
        (strLower d.1, statsEntry (d.2.map (fun p => questionOf p.2))))) ∧
    questionOf [("pname", .str "Two Sum")] =
      .obj [("question", .str "Two Sum"), ("questionUrl", .str problemsUrl)] :=
  ⟨extract_solved_stats_clean diffs hnodup, rfl⟩

/-- C9 witness: the fixture of the claim evaluates to the claimed output,
by the theorem applied at the one-difficulty input. -/
theorem c9_witness :
    extract_solved_stats
        (subsOf [("Easy", [("1", [("pname", .str "Two Sum"),
                                  ("slug", .str "two-sum")])])]) =
      .obj [("easy", .obj [("count", .num 1), ("questions", .arr
        [.obj [("question", .str "Two Sum"),
               ("questionUrl",
                .str "https://practice.geeksforgeeks.org/problems/two-sum")]])])] :=
  ((c9_solved_stats
      [("Easy", [("1", [("pname", .str "Two Sum"), ("slug", .str "two-sum")])])]
      (by decide)).1).trans (by rfl)

/-- C10: each of the three routes answers 200 exactly when the extractor
result has no error key; a profile result without an error key is always
the info/solvedStats body with the embedded status_code 200; and in every
solved-stats output each difficulty entry's count equals the length of
its questions list. -/
theorem c10_router_status :
    (∀ u r, (route_result (fetchResponse u r)).2 = .num 200 ↔
        hasKey (fetchResponse u r) "error" = false) ∧
    (∀ u y r, (route_result (calendar_fetch_response u y r)).2 = .num 200 ↔
        hasKey (calendar_fetch_response u y r) "error" = false) ∧
    (∀ u y r, (route_result (contest_fetch_response u y r)).2 = .num 200 ↔
        hasKey (contest_fetch_response u y r) "error" = false) ∧
    (∀ u r, (hasKey (fetchResponse u r) "error" ||
        profileBodyOk (fetchResponse u r)) = true) ∧
    (∀ subs, statsPopulated (extract_solved_stats subs) = true) := by
  refine ⟨?_, ?_, ?_, ?_, extract_solved_stats_populated⟩
  · intro u r
    rcases fetchResponse_cases u r with ⟨m, hm⟩ | ⟨m, hm⟩ | ⟨m, hm⟩ | ⟨a, b, c, subs, hm⟩ <;>
      rw [hm]
    · rw [route_errResult]
      simp [errResult, hasKey, lookupKey_cons, lookupKey_nil]
    · rw [route_errResult]
      simp [errResult, hasKey, lookupKey_cons, lookupKey_nil]
    · rw [route_errResult]
      simp [errResult, hasKey, lookupKey_cons, lookupKey_nil]
    · rw [route_profile_success]
      simp [hasKey, lookupKey_cons, lookupKey_nil]
  · intro u y r
    rcases calendar_fetch_response_cases u y r with ⟨m, hm⟩ | ⟨c, rr, hm⟩ <;> rw [hm]
    · rw [route_bareError]
      simp [hasKey, lookupKey_cons, lookupKey_nil]
    · rw [route_calendar_success]
      simp [hasKey, lookupKey_cons, lookupKey_nil]
  · intro u y r
    rcases contest_fetch_response_cases u y r with ⟨m, hm⟩ | ⟨a, b, c, e, f, hm⟩ <;> rw [hm]
    · rw [route_bareError]
      simp [hasKey, lookupKey_cons, lookupKey_nil]
    · rw [route_contest_success]
      simp [hasKey, lookupKey_cons, lookupKey_nil]
  · intro u r
    rcases fetchResponse_cases u r with ⟨m, hm⟩ | ⟨m, hm⟩ | ⟨m, hm⟩ | ⟨a, b, c, subs, hm⟩ <;>
      rw [hm]
    · simp [errResult, hasKey, lookupKey_cons, lookupKey_nil]
    · simp [errResult, hasKey, lookupKey_cons, lookupKey_nil]
    · simp [errResult, hasKey, lookupKey_cons, lookupKey_nil]
    · simp [hasKey, lookupKey_cons, lookupKey_nil, profileBodyOk]
